import Mathlib

/-!
Verification of the quiz-generator pipeline (`src/main.py`).

Python strings are modelled as lists of characters (`PyStr`).  The three
external collaborators — the PDF library (`PyPDF2`), the Azure OpenAI chat
completion service, and the standard-library JSON decoder (`json.loads`) —
are modelled as oracle parameters of the pipeline: each is an arbitrary
function supplied to the handler, so every theorem quantifies over their
behaviour.  Everything else (validation guards, response cleaning, prompt
construction, pydantic record validation, error mapping) is translated
directly from the source.
-/

namespace QuizGen

/-- Python strings are modelled as lists of characters. -/
abbrev PyStr := List Char

/-- Shorthand: the character data of a Lean string literal. -/
def lit (s : String) : PyStr := s.data

/-- Python `str.strip()`: remove whitespace from both ends. -/
def pyStrip (s : PyStr) : PyStr :=
  List.rdropWhile Char.isWhitespace (List.dropWhile Char.isWhitespace s)

/-- Python `s.startswith(p)`. -/
def pyStartsWith (s p : PyStr) : Bool :=
  s.take p.length == p

/-- Python `s.endswith(p)`. -/
def pyEndsWith (s p : PyStr) : Bool :=
  decide (p.length ≤ s.length) && (s.drop (s.length - p.length) == p)

/-- JSON values as produced by `json.loads` (numbers modelled as integers;
no claim depends on numeric payloads). -/
inductive Json : Type where
  | null : Json
  | bool : Bool → Json
  | num : Int → Json
  | str : PyStr → Json
  | arr : List Json → Json
  | obj : List (PyStr × Json) → Json

/-- Pydantic model `MCQQuestion` (src/main.py lines 31-35). -/
structure MCQQuestion where
  question : PyStr
  options : List PyStr
  correct_answer : PyStr
  explanation : Option PyStr

/-- Pydantic model `ShortAnswerQuestion` (src/main.py lines 37-39). -/
structure ShortAnswerQuestion where
  question : PyStr
  expected_answer : PyStr

/-- Pydantic model `FillInTheBlank` (src/main.py lines 41-44). -/
structure FillInTheBlank where
  question : PyStr
  answer : PyStr
  hint : Option PyStr

/-- Pydantic model `QuizResponse` (src/main.py lines 46-52). -/
structure QuizResponse where
  success : Bool
  message : PyStr
  mcq_questions : List MCQQuestion
  short_answer_questions : List ShortAnswerQuestion
  fill_in_the_blanks : List FillInTheBlank
  total_questions : Nat

/-- The `fastapi.HTTPException(status_code, detail)` value. -/
structure HTTPException where
  status_code : Nat
  detail : PyStr

/-- A Python exception as seen by the handler's `try`/`except` chain:
either an `HTTPException` or any other exception carrying its `str()`. -/
inductive PyExc : Type where
  | http : HTTPException → PyExc
  | other : PyStr → PyExc

/-- First-match association lookup inside a JSON object (dicts produced by
`json.loads` have unique keys). -/
def jsonLookup (fields : List (PyStr × Json)) (key : PyStr) : Option Json :=
  match fields with
  | [] => none
  | (k, v) :: rest => if k = key then some v else jsonLookup rest key

/-- Python `obj.get(key, default)`: on a dict returns the binding or the
default; any non-dict receiver raises `AttributeError`. -/
def dictGet (j : Json) (key : PyStr) (dflt : Json) : Except PyStr Json :=
  match j with
  | .obj fields => .ok ((jsonLookup fields key).getD dflt)
  | _ => .error (lit "AttributeError: object has no attribute get")

/-- A Python list comprehension `[f q for q in xs]` over a fallible `f`:
it raises at the first element whose construction raises. -/
def mapExcept {α β : Type} (f : α → Except PyStr β) : List α → Except PyStr (List β)
  | [] => .ok []
  | x :: xs => do
    let y ← f x
    let ys ← mapExcept f xs
    .ok (y :: ys)

/-- Pydantic validation of a required `str` field value. -/
def asStr : Json → Except PyStr PyStr
  | .str s => .ok s
  | _ => .error (lit "Input should be a valid string")

/-- Pydantic validation of a `List[str]` field value. -/
def asStrList : Json → Except PyStr (List PyStr)
  | .arr xs => mapExcept asStr xs
  | _ => .error (lit "Input should be a valid list")

/-- Pydantic validation of an `Optional[str]` field value. -/
def asOptStr : Json → Except PyStr (Option PyStr)
  | .null => .ok none
  | .str s => .ok (some s)
  | _ => .error (lit "Input should be a valid string")

/-- Look up a required pydantic field; absence is a validation error. -/
def requireField (fields : List (PyStr × Json)) (key : PyStr) : Except PyStr Json :=
  match jsonLookup fields key with
  | some v => .ok v
  | none => .error (lit "Field required: " ++ key)

/-- Constructor call `MCQQuestion(**q)`: validates the record shape; a
non-dict argument or a missing / ill-shaped required field raises. -/
def mkMCQQuestion (j : Json) : Except PyStr MCQQuestion :=
  match j with
  | .obj fields => do
    let q ← requireField fields (lit "question") >>= asStr
    let opts ← requireField fields (lit "options") >>= asStrList
    let ca ← requireField fields (lit "correct_answer") >>= asStr
    let ex ← match jsonLookup fields (lit "explanation") with
      | none => Except.ok none
      | some v => asOptStr v
    Except.ok { question := q, options := opts, correct_answer := ca, explanation := ex }
  | _ => .error (lit "TypeError: argument after ** must be a mapping")

/-- Constructor call `ShortAnswerQuestion(**q)`. -/
def mkShortAnswerQuestion (j : Json) : Except PyStr ShortAnswerQuestion :=
  match j with
  | .obj fields => do
    let q ← requireField fields (lit "question") >>= asStr
    let ea ← requireField fields (lit "expected_answer") >>= asStr
    Except.ok { question := q, expected_answer := ea }
  | _ => .error (lit "TypeError: argument after ** must be a mapping")

/-- Constructor call `FillInTheBlank(**q)`. -/
def mkFillInTheBlank (j : Json) : Except PyStr FillInTheBlank :=
  match j with
  | .obj fields => do
    let q ← requireField fields (lit "question") >>= asStr
    let a ← requireField fields (lit "answer") >>= asStr
    let h ← match jsonLookup fields (lit "hint") with
      | none => Except.ok none
      | some v => asOptStr v
    Except.ok { question := q, answer := a, hint := h }
  | _ => .error (lit "TypeError: argument after ** must be a mapping")

/-- Iterating `for q in v` in a list comprehension: only an actual JSON
array yields record candidates; every other shape raises. -/
def asJsonList : Json → Except PyStr (List Json)
  | .arr xs => .ok xs
  | _ => .error (lit "TypeError: object is not iterable of mappings")

/-- Line 210 of src/main.py:
`[MCQQuestion(**q) for q in questions_data.get("mcq", [])]`. -/
def shape_mcq (qd : Json) : Except PyStr (List MCQQuestion) := do
  let v ← dictGet qd (lit "mcq") (.arr [])
  let xs ← asJsonList v
  mapExcept mkMCQQuestion xs

/-- Line 211 of src/main.py:
`[ShortAnswerQuestion(**q) for q in questions_data.get("short_answer", [])]`. -/
def shape_short (qd : Json) : Except PyStr (List ShortAnswerQuestion) := do
  let v ← dictGet qd (lit "short_answer") (.arr [])
  let xs ← asJsonList v
  mapExcept mkShortAnswerQuestion xs

/-- Line 212 of src/main.py:
`[FillInTheBlank(**q) for q in questions_data.get("fill_in_the_blanks", [])]`. -/
def shape_blanks (qd : Json) : Except PyStr (List FillInTheBlank) := do
  let v ← dictGet qd (lit "fill_in_the_blanks") (.arr [])
  let xs ← asJsonList v
  mapExcept mkFillInTheBlank xs

/-- The instruction string built for the model (src/main.py lines 73-108).
The Python f-string is transcribed literally; `\x7b`/`\x7d` denote the
brace characters produced by the doubled braces of the f-string, and the
interpolations `text[:8000]`, `num_mcq`, `num_short`, `num_blanks` become
the corresponding parameters. -/
def build_prompt (text : PyStr) (num_mcq num_short num_blanks : Nat) : PyStr :=
  lit "Based on the following text, generate questions in THREE categories:\n\nTEXT:\n" ++
  text.take 8000 ++
  lit "\n\nGenerate exactly:\n1. " ++
  lit (Nat.repr num_mcq) ++
  lit " Multiple Choice Questions (MCQ)\n2. " ++
  lit (Nat.repr num_short) ++
  lit " Short Answer Questions\n3. " ++
  lit (Nat.repr num_blanks) ++
  lit " Fill in the Blank Questions\n\nReturn your response as a VALID JSON object with this EXACT structure:\n\x7b\n  \"" ++
  lit "mcq" ++
  lit "\": [\n    \x7b\n      \"" ++
  lit "question" ++
  lit "\": \"Question text?\",\n      \"" ++
  lit "options" ++
  lit "\": [\"A) Option 1\", \"B) Option 2\", \"C) Option 3\", \"D) Option 4\"],\n      \"" ++
  lit "correct_answer" ++
  lit "\": \"A\",\n      \"" ++
  lit "explanation" ++
  lit "\": \"Brief explanation\"\n    \x7d\n  ],\n  \"" ++
  lit "short_answer" ++
  lit "\": [\n    \x7b\n      \"question\": \"Question text?\",\n      \"" ++
  lit "expected_answer" ++
  lit "\": \"Expected answer in 2-3 sentences\"\n    \x7d\n  ],\n  \"" ++
  lit "fill_in_the_blanks" ++
  lit "\": [\n    \x7b\n      \"question\": \"The capital of France is _____.\",\n      \"" ++
  lit "answer" ++
  lit "\": \"Paris\",\n      \"" ++
  lit "hint" ++
  lit "\": \"A European city\"\n    \x7d\n  ]\n\x7d\n\nIMPORTANT: Return ONLY valid JSON, no extra text or markdown."

/-- Response cleaning (src/main.py lines 124-132): strip whitespace, drop a
leading fenced-code marker (tagged `json` or untagged), drop a trailing
fenced-code marker, strip again. -/
def clean_response (s : PyStr) : PyStr :=
  let t0 := pyStrip s
  let t1 := if pyStartsWith t0 (lit "```json") then t0.drop 7 else t0
  let t2 := if pyStartsWith t1 (lit "```") then t1.drop 3 else t1
  let t3 := if pyEndsWith t2 (lit "```") then t2.take (t2.length - 3) else t2
  pyStrip t3

/-- Function `generate_questions_with_azure` (src/main.py lines 70-141): build the
prompt, call the model oracle, clean and decode the completion.  A model
failure raises `HTTPException(500, "Azure OpenAI error: …")`; an
undecodable completion raises `HTTPException(500, "Failed to parse AI
response: …")`. -/
def generate_questions_with_azure
    (model : PyStr → Except PyStr PyStr)
    (jsonLoads : PyStr → Except PyStr Json)
    (text : PyStr) (num_mcq num_short num_blanks : Nat) : Except PyExc Json :=
  match model (build_prompt text num_mcq num_short num_blanks) with
  | .error e => .error (.http ⟨500, lit "Azure OpenAI error: " ++ e⟩)
  | .ok raw =>
    match jsonLoads (clean_response raw) with
    | .error e => .error (.http ⟨500, lit "Failed to parse AI response: " ++ e⟩)
    | .ok j => .ok j

/-- The page-concatenation loop of `extract_text_from_pdf`
(src/main.py lines 61-63): each page's text followed by a newline. -/
def joinPages (pages : List PyStr) : PyStr :=
  pages.foldl (fun acc p => acc ++ p ++ lit "\n") []

/-- Function `extract_text_from_pdf` (src/main.py lines 55-67): the PDF library is
an oracle from the raw bytes to either the ordered page texts or the
message of the exception it raises; a failure becomes
`HTTPException(400, "Error reading PDF: …")`. -/
def extract_text_from_pdf
    (readPdf : List Nat → Except PyStr (List PyStr)) (pdf_bytes : List Nat) :
    Except PyExc PyStr :=
  match readPdf pdf_bytes with
  | .ok pages => .ok (pyStrip (joinPages pages))
  | .error e => .error (.http ⟨400, lit "Error reading PDF: " ++ e⟩)

/-- Lift a pydantic/`TypeError`-style failure into the handler's exception
type: such exceptions are not `HTTPException`s. -/
def liftPy {α : Type} : Except PyStr α → Except PyExc α
  | .ok a => .ok a
  | .error e => .error (.other e)

/-- The body of the `generate-quiz` handler after the file-type and
file-size guards (src/main.py lines 198-223). -/
def quiz_pipeline_after_size
    (readPdf : List Nat → Except PyStr (List PyStr))
    (model : PyStr → Except PyStr PyStr)
    (jsonLoads : PyStr → Except PyStr Json)
    (filename : PyStr) (pdf_bytes : List Nat)
    (num_mcq num_short_answer num_fill_blanks : Nat) : Except PyExc QuizResponse := do
  let text ← extract_text_from_pdf readPdf pdf_bytes
  if text.length < 100 then
    throw (.http ⟨400, lit "PDF text too short. Need at least 100 characters"⟩)
  let questions_data ← generate_questions_with_azure model jsonLoads text
    num_mcq num_short_answer num_fill_blanks
  let mcq_questions ← liftPy (shape_mcq questions_data)
  let short_questions ← liftPy (shape_short questions_data)
  let blank_questions ← liftPy (shape_blanks questions_data)
  let total := mcq_questions.length + short_questions.length + blank_questions.length
  pure
    { success := true
      message := lit "Successfully generated " ++ lit (Nat.repr total) ++
        lit " questions from " ++ filename
      mcq_questions := mcq_questions
      short_answer_questions := short_questions
      fill_in_the_blanks := blank_questions
      total_questions := total }

/-- The guarded body of the `generate-quiz` handler (src/main.py
lines 185-223): file-type guard, file-size guard, then the rest. -/
def quiz_pipeline
    (readPdf : List Nat → Except PyStr (List PyStr))
    (model : PyStr → Except PyStr PyStr)
    (jsonLoads : PyStr → Except PyStr Json)
    (filename : PyStr) (pdf_bytes : List Nat)
    (num_mcq num_short_answer num_fill_blanks : Nat) : Except PyExc QuizResponse := do
  if !(pyEndsWith filename (lit ".pdf")) then
    throw (.http ⟨400, lit "Only PDF files are allowed"⟩)
  if pdf_bytes.length > 10 * 1024 * 1024 then
    throw (.http ⟨400, lit "File too large. Max 10MB"⟩)
  quiz_pipeline_after_size readPdf model jsonLoads filename pdf_bytes
    num_mcq num_short_answer num_fill_blanks

/-- The handler's `except HTTPException: raise / except Exception as e:
raise HTTPException(500, f"Error: {str(e)}")` boundary
(src/main.py lines 225-228). -/
def exception_boundary :
    Except PyExc QuizResponse → Except HTTPException QuizResponse
  | .ok r => .ok r
  | .error (.http e) => .error e
  | .error (.other m) => .error ⟨500, lit "Error: " ++ m⟩

/-- The `POST /generate-quiz` handler `generate_quiz`
(src/main.py lines 169-228). -/
def generate_quiz
    (readPdf : List Nat → Except PyStr (List PyStr))
    (model : PyStr → Except PyStr PyStr)
    (jsonLoads : PyStr → Except PyStr Json)
    (filename : PyStr) (pdf_bytes : List Nat)
    (num_mcq num_short_answer num_fill_blanks : Nat) : Except HTTPException QuizResponse :=
  exception_boundary (quiz_pipeline readPdf model jsonLoads filename pdf_bytes
    num_mcq num_short_answer num_fill_blanks)

/-- The JSON body produced by the catch-all handler. -/
structure ErrorContent where
  success : Bool
  message : PyStr
  error : PyStr
deriving DecidableEq

/-- A `JSONResponse` carrying a status code and the error body. -/
structure JSONResponseModel where
  status_code : Nat
  content : ErrorContent
deriving DecidableEq

/-- Handler `global_exception_handler` (src/main.py lines 231-240): a 500 response
whose body holds `success=False`, the fixed message `"Internal server
error"`, and `str(exc)` in the `error` field. -/
def global_exception_handler (exc : PyStr) : JSONResponseModel :=
  { status_code := 500
    content := { success := false, message := lit "Internal server error", error := exc } }

/-! Helper lemmas about `Except` and the handler's guards. -/

lemma except_bind_ok {ε α β : Type} (a : α) (f : α → Except ε β) :
    (Except.ok a >>= f) = f a := rfl

lemma except_bind_error {ε α β : Type} (e : ε) (f : α → Except ε β) :
    ((Except.error e : Except ε α) >>= f) = Except.error e := rfl

lemma generate_quiz_reject_file_type
    (readPdf : List Nat → Except PyStr (List PyStr))
    (model : PyStr → Except PyStr PyStr)
    (jsonLoads : PyStr → Except PyStr Json)
    (filename : PyStr) (pdf_bytes : List Nat) (n1 n2 n3 : Nat)
    (h : pyEndsWith filename (lit ".pdf") = false) :
    generate_quiz readPdf model jsonLoads filename pdf_bytes n1 n2 n3 =
      .error ⟨400, lit "Only PDF files are allowed"⟩ := by
  simp [generate_quiz, quiz_pipeline, exception_boundary, h, throw, throwThe,
    MonadExceptOf.throw, except_bind_error]

lemma generate_quiz_eq_after_size
    (readPdf : List Nat → Except PyStr (List PyStr))
    (model : PyStr → Except PyStr PyStr)
    (jsonLoads : PyStr → Except PyStr Json)
    (filename : PyStr) (pdf_bytes : List Nat) (n1 n2 n3 : Nat)
    (hfn : pyEndsWith filename (lit ".pdf") = true)
    (hsize : pdf_bytes.length ≤ 10 * 1024 * 1024) :
    generate_quiz readPdf model jsonLoads filename pdf_bytes n1 n2 n3 =
      exception_boundary (quiz_pipeline_after_size readPdf model jsonLoads
        filename pdf_bytes n1 n2 n3) := by
  simp [generate_quiz, quiz_pipeline, hfn, Nat.not_lt.mpr hsize]

lemma generate_quiz_reject_size
    (readPdf : List Nat → Except PyStr (List PyStr))
    (model : PyStr → Except PyStr PyStr)
    (jsonLoads : PyStr → Except PyStr Json)
    (filename : PyStr) (pdf_bytes : List Nat) (n1 n2 n3 : Nat)
    (hfn : pyEndsWith filename (lit ".pdf") = true)
    (hsize : pdf_bytes.length > 10 * 1024 * 1024) :
    generate_quiz readPdf model jsonLoads filename pdf_bytes n1 n2 n3 =
      .error ⟨400, lit "File too large. Max 10MB"⟩ := by
  simp [generate_quiz, quiz_pipeline, exception_boundary, hfn, hsize,
    throw, throwThe, MonadExceptOf.throw, except_bind_error]

lemma after_size_reject_short_text
    (readPdf : List Nat → Except PyStr (List PyStr))
    (model : PyStr → Except PyStr PyStr)
    (jsonLoads : PyStr → Except PyStr Json)
    (filename : PyStr) (pdf_bytes : List Nat) (n1 n2 n3 : Nat)
    (pages : List PyStr)
    (hread : readPdf pdf_bytes = .ok pages)
    (hshort : (pyStrip (joinPages pages)).length < 100) :
    quiz_pipeline_after_size readPdf model jsonLoads filename pdf_bytes n1 n2 n3 =
      .error (.http ⟨400, lit "PDF text too short. Need at least 100 characters"⟩) := by
  simp [quiz_pipeline_after_size, extract_text_from_pdf, hread, hshort, except_bind_ok,
    except_bind_error, throw, throwThe, MonadExceptOf.throw]

lemma after_size_success
    (readPdf : List Nat → Except PyStr (List PyStr))
    (model : PyStr → Except PyStr PyStr)
    (jsonLoads : PyStr → Except PyStr Json)
    (filename : PyStr) (pdf_bytes : List Nat) (n1 n2 n3 : Nat)
    (pages : List PyStr) (raw : PyStr) (qd : Json)
    (mcqs : List MCQQuestion) (shorts : List ShortAnswerQuestion) (blanks : List FillInTheBlank)
    (hread : readPdf pdf_bytes = .ok pages)
    (hlen : 100 ≤ (pyStrip (joinPages pages)).length)
    (hmodel : model (build_prompt (pyStrip (joinPages pages)) n1 n2 n3) = .ok raw)
    (hparse : jsonLoads (clean_response raw) = .ok qd)
    (hm : shape_mcq qd = .ok mcqs)
    (hs : shape_short qd = .ok shorts)
    (hb : shape_blanks qd = .ok blanks) :
    quiz_pipeline_after_size readPdf model jsonLoads filename pdf_bytes n1 n2 n3 =
      .ok { success := true
            message := lit "Successfully generated " ++
              lit (Nat.repr (mcqs.length + shorts.length + blanks.length)) ++
              lit " questions from " ++ filename
            mcq_questions := mcqs
            short_answer_questions := shorts
            fill_in_the_blanks := blanks
            total_questions := mcqs.length + shorts.length + blanks.length } := by
  simp [quiz_pipeline_after_size, extract_text_from_pdf, generate_questions_with_azure,
    hread, hmodel, hparse, hm, hs, hb, liftPy, except_bind_ok, Nat.not_lt.mpr hlen]

lemma after_size_mcq_shape_error
    (readPdf : List Nat → Except PyStr (List PyStr))
    (model : PyStr → Except PyStr PyStr)
    (jsonLoads : PyStr → Except PyStr Json)
    (filename : PyStr) (pdf_bytes : List Nat) (n1 n2 n3 : Nat)
    (pages : List PyStr) (raw : PyStr) (qd : Json) (e : PyStr)
    (hread : readPdf pdf_bytes = .ok pages)
    (hlen : 100 ≤ (pyStrip (joinPages pages)).length)
    (hmodel : model (build_prompt (pyStrip (joinPages pages)) n1 n2 n3) = .ok raw)
    (hparse : jsonLoads (clean_response raw) = .ok qd)
    (he : shape_mcq qd = .error e) :
    quiz_pipeline_after_size readPdf model jsonLoads filename pdf_bytes n1 n2 n3 =
      .error (.other e) := by
  simp [quiz_pipeline_after_size, extract_text_from_pdf, generate_questions_with_azure,
    hread, hmodel, hparse, he, liftPy, except_bind_ok, except_bind_error, Nat.not_lt.mpr hlen]

/-! Helper lemmas about the validation / shaping stage. -/

lemma mapExcept_error_of_mem {α β : Type} (f : α → Except PyStr β) {l : List α} {x : α}
    (hx : x ∈ l) (he : ∃ e, f x = .error e) : ∃ e, mapExcept f l = .error e := by
  induction l with
  | nil => cases hx
  | cons a as ih =>
    cases hfa : f a with
    | error e => exact ⟨e, by simp [mapExcept, hfa, except_bind_error]⟩
    | ok y =>
      rcases List.mem_cons.mp hx with rfl | hmem
      · rcases he with ⟨e, he⟩
        rw [hfa] at he
        cases he
      · rcases ih hmem with ⟨e, he⟩
        exact ⟨e, by simp [mapExcept, hfa, he, except_bind_ok, except_bind_error]⟩

/-- A JSON value that fails pydantic `str` validation. -/
def NotStr (v : Json) : Prop := ∀ t, v ≠ Json.str t

/-- A JSON value that fails pydantic `List[str]` validation: not an
array, or an array with an element that is not a string. -/
def NotStrList (v : Json) : Prop :=
  (∀ xs, v ≠ Json.arr xs) ∨ (∃ xs, v = Json.arr xs ∧ ∃ x ∈ xs, NotStr x)

/-- A JSON value that fails pydantic `Optional[str]` validation. -/
def NotOptStr (v : Json) : Prop := v ≠ Json.null ∧ NotStr v

/-- A required field of the record is missing, or present with a value
failing the given shape validation. -/
def reqFieldBad (qf : List (PyStr × Json)) (key : PyStr) (bad : Json → Prop) : Prop :=
  jsonLookup qf key = none ∨ ∃ v, jsonLookup qf key = some v ∧ bad v

/-- An optional field of the record is present with a value failing the
given shape validation. -/
def optFieldBad (qf : List (PyStr × Json)) (key : PyStr) (bad : Json → Prop) : Prop :=
  ∃ v, jsonLookup qf key = some v ∧ bad v

/-- An mcq record pydantic must reject: not a mapping, a required field
(question, options, correct_answer) missing or ill-shaped, or an
ill-shaped optional explanation. -/
def BadMCQRecord (q : Json) : Prop :=
  (∀ qf, q ≠ Json.obj qf) ∨
  ∃ qf, q = Json.obj qf ∧
    (reqFieldBad qf (lit "question") NotStr ∨
     reqFieldBad qf (lit "options") NotStrList ∨
     reqFieldBad qf (lit "correct_answer") NotStr ∨
     optFieldBad qf (lit "explanation") NotOptStr)

/-- A short-answer record pydantic must reject. -/
def BadShortAnswerRecord (q : Json) : Prop :=
  (∀ qf, q ≠ Json.obj qf) ∨
  ∃ qf, q = Json.obj qf ∧
    (reqFieldBad qf (lit "question") NotStr ∨
     reqFieldBad qf (lit "expected_answer") NotStr)

/-- A fill-in-the-blank record pydantic must reject. -/
def BadFillBlankRecord (q : Json) : Prop :=
  (∀ qf, q ≠ Json.obj qf) ∨
  ∃ qf, q = Json.obj qf ∧
    (reqFieldBad qf (lit "question") NotStr ∨
     reqFieldBad qf (lit "answer") NotStr ∨
     optFieldBad qf (lit "hint") NotOptStr)

/-- A decoded model document containing, in one of its three named
lists, a record pydantic must reject. -/
def BadDocument (fields : List (PyStr × Json)) : Prop :=
  (∃ ms q, jsonLookup fields (lit "mcq") = some (.arr ms) ∧ q ∈ ms ∧ BadMCQRecord q) ∨
  (∃ ss q, jsonLookup fields (lit "short_answer") = some (.arr ss) ∧ q ∈ ss ∧
    BadShortAnswerRecord q) ∨
  (∃ bs q, jsonLookup fields (lit "fill_in_the_blanks") = some (.arr bs) ∧ q ∈ bs ∧
    BadFillBlankRecord q)

lemma asStr_error_of_NotStr {v : Json} (h : NotStr v) : ∃ e, asStr v = .error e := by
  cases v with
  | str t => exact absurd rfl (h t)
  | null => exact ⟨_, rfl⟩
  | bool b => exact ⟨_, rfl⟩
  | num n => exact ⟨_, rfl⟩
  | arr xs => exact ⟨_, rfl⟩
  | obj fs => exact ⟨_, rfl⟩

lemma asStrList_error_of_NotStrList {v : Json} (h : NotStrList v) :
    ∃ e, asStrList v = .error e := by
  rcases h with h | ⟨xs, rfl, x, hx, hns⟩
  · cases v with
    | arr xs => exact absurd rfl (h xs)
    | null => exact ⟨_, rfl⟩
    | bool b => exact ⟨_, rfl⟩
    | num n => exact ⟨_, rfl⟩
    | str t => exact ⟨_, rfl⟩
    | obj fs => exact ⟨_, rfl⟩
  · rcases mapExcept_error_of_mem asStr hx (asStr_error_of_NotStr hns) with ⟨e, he⟩
    exact ⟨e, by simp [asStrList, he]⟩

lemma asOptStr_error_of_NotOptStr {v : Json} (h : NotOptStr v) :
    ∃ e, asOptStr v = .error e := by
  obtain ⟨hnull, hstr⟩ := h
  cases v with
  | null => exact absurd rfl hnull
  | str t => exact absurd rfl (hstr t)
  | bool b => exact ⟨_, rfl⟩
  | num n => exact ⟨_, rfl⟩
  | arr xs => exact ⟨_, rfl⟩
  | obj fs => exact ⟨_, rfl⟩

lemma req_str_step_error {qf : List (PyStr × Json)} {key : PyStr}
    (h : reqFieldBad qf key NotStr) :
    ∃ e, (requireField qf key >>= asStr) = .error e := by
  rcases h with hnone | ⟨v, hv, hbad⟩
  · exact ⟨lit "Field required: " ++ key, by simp [requireField, hnone, except_bind_error]⟩
  · rcases asStr_error_of_NotStr hbad with ⟨e, he⟩
    exact ⟨e, by simp [requireField, hv, except_bind_ok, he]⟩

lemma req_strlist_step_error {qf : List (PyStr × Json)} {key : PyStr}
    (h : reqFieldBad qf key NotStrList) :
    ∃ e, (requireField qf key >>= asStrList) = .error e := by
  rcases h with hnone | ⟨v, hv, hbad⟩
  · exact ⟨lit "Field required: " ++ key, by simp [requireField, hnone, except_bind_error]⟩
  · rcases asStrList_error_of_NotStrList hbad with ⟨e, he⟩
    exact ⟨e, by simp [requireField, hv, except_bind_ok, he]⟩

lemma mkMCQQuestion_error_of_bad {q : Json} (h : BadMCQRecord q) :
    ∃ e, mkMCQQuestion q = .error e := by
  rcases h with hobj | ⟨qf, rfl, hbad⟩
  · cases q with
    | obj qf => exact absurd rfl (hobj qf)
    | null => exact ⟨_, rfl⟩
    | bool b => exact ⟨_, rfl⟩
    | num n => exact ⟨_, rfl⟩
    | str t => exact ⟨_, rfl⟩
    | arr xs => exact ⟨_, rfl⟩
  · cases h1 : (requireField qf (lit "question") >>= asStr) with
    | error e => exact ⟨e, by simp [mkMCQQuestion, h1, except_bind_error]⟩
    | ok qv =>
      cases h2 : (requireField qf (lit "options") >>= asStrList) with
      | error e => exact ⟨e, by simp [mkMCQQuestion, h1, h2, except_bind_ok, except_bind_error]⟩
      | ok opts =>
        cases h3 : (requireField qf (lit "correct_answer") >>= asStr) with
        | error e =>
          exact ⟨e, by simp [mkMCQQuestion, h1, h2, h3, except_bind_ok, except_bind_error]⟩
        | ok ca =>
          rcases hbad with hb | hb | hb | ⟨v, hv, hbadv⟩
          · rcases req_str_step_error hb with ⟨e, he⟩
            rw [he] at h1
            exact Except.noConfusion h1
          · rcases req_strlist_step_error hb with ⟨e, he⟩
            rw [he] at h2
            exact Except.noConfusion h2
          · rcases req_str_step_error hb with ⟨e, he⟩
            rw [he] at h3
            exact Except.noConfusion h3
          · rcases asOptStr_error_of_NotOptStr hbadv with ⟨e, he⟩
            exact ⟨e, by
              simp [mkMCQQuestion, h1, h2, h3, hv, he, except_bind_ok, except_bind_error]⟩

lemma mkShortAnswerQuestion_error_of_bad {q : Json} (h : BadShortAnswerRecord q) :
    ∃ e, mkShortAnswerQuestion q = .error e := by
  rcases h with hobj | ⟨qf, rfl, hbad⟩
  · cases q with
    | obj qf => exact absurd rfl (hobj qf)
    | null => exact ⟨_, rfl⟩
    | bool b => exact ⟨_, rfl⟩
    | num n => exact ⟨_, rfl⟩
    | str t => exact ⟨_, rfl⟩
    | arr xs => exact ⟨_, rfl⟩
  · cases h1 : (requireField qf (lit "question") >>= asStr) with
    | error e => exact ⟨e, by simp [mkShortAnswerQuestion, h1, except_bind_error]⟩
    | ok qv =>
      cases h2 : (requireField qf (lit "expected_answer") >>= asStr) with
      | error e =>
        exact ⟨e, by simp [mkShortAnswerQuestion, h1, h2, except_bind_ok, except_bind_error]⟩
      | ok ea =>
        rcases hbad with hb | hb
        · rcases req_str_step_error hb with ⟨e, he⟩
          rw [he] at h1
          exact Except.noConfusion h1
        · rcases req_str_step_error hb with ⟨e, he⟩
          rw [he] at h2
          exact Except.noConfusion h2

lemma mkFillInTheBlank_error_of_bad {q : Json} (h : BadFillBlankRecord q) :
    ∃ e, mkFillInTheBlank q = .error e := by
  rcases h with hobj | ⟨qf, rfl, hbad⟩
  · cases q with
    | obj qf => exact absurd rfl (hobj qf)
    | null => exact ⟨_, rfl⟩
    | bool b => exact ⟨_, rfl⟩
    | num n => exact ⟨_, rfl⟩
    | str t => exact ⟨_, rfl⟩
    | arr xs => exact ⟨_, rfl⟩
  · cases h1 : (requireField qf (lit "question") >>= asStr) with
    | error e => exact ⟨e, by simp [mkFillInTheBlank, h1, except_bind_error]⟩
    | ok qv =>
      cases h2 : (requireField qf (lit "answer") >>= asStr) with
      | error e =>
        exact ⟨e, by simp [mkFillInTheBlank, h1, h2, except_bind_ok, except_bind_error]⟩
      | ok av =>
        rcases hbad with hb | hb | ⟨v, hv, hbadv⟩
        · rcases req_str_step_error hb with ⟨e, he⟩
          rw [he] at h1
          exact Except.noConfusion h1
        · rcases req_str_step_error hb with ⟨e, he⟩
          rw [he] at h2
          exact Except.noConfusion h2
        · rcases asOptStr_error_of_NotOptStr hbadv with ⟨e, he⟩
          exact ⟨e, by
            simp [mkFillInTheBlank, h1, h2, hv, he, except_bind_ok, except_bind_error]⟩

lemma shape_mcq_error_of_bad (fields : List (PyStr × Json)) (ms : List Json) (q : Json)
    (hfield : jsonLookup fields (lit "mcq") = some (.arr ms))
    (hq : q ∈ ms) (hbad : BadMCQRecord q) :
    ∃ e, shape_mcq (.obj fields) = .error e := by
  rcases mapExcept_error_of_mem mkMCQQuestion hq (mkMCQQuestion_error_of_bad hbad) with ⟨e, he⟩
  exact ⟨e, by simp [shape_mcq, dictGet, hfield, asJsonList, he, except_bind_ok]⟩

lemma shape_short_error_of_bad (fields : List (PyStr × Json)) (ss : List Json) (q : Json)
    (hfield : jsonLookup fields (lit "short_answer") = some (.arr ss))
    (hq : q ∈ ss) (hbad : BadShortAnswerRecord q) :
    ∃ e, shape_short (.obj fields) = .error e := by
  rcases mapExcept_error_of_mem mkShortAnswerQuestion hq
    (mkShortAnswerQuestion_error_of_bad hbad) with ⟨e, he⟩
  exact ⟨e, by simp [shape_short, dictGet, hfield, asJsonList, he, except_bind_ok]⟩

lemma shape_blanks_error_of_bad (fields : List (PyStr × Json)) (bs : List Json) (q : Json)
    (hfield : jsonLookup fields (lit "fill_in_the_blanks") = some (.arr bs))
    (hq : q ∈ bs) (hbad : BadFillBlankRecord q) :
    ∃ e, shape_blanks (.obj fields) = .error e := by
  rcases mapExcept_error_of_mem mkFillInTheBlank hq
    (mkFillInTheBlank_error_of_bad hbad) with ⟨e, he⟩
  exact ⟨e, by simp [shape_blanks, dictGet, hfield, asJsonList, he, except_bind_ok]⟩

lemma after_size_short_shape_error
    (readPdf : List Nat → Except PyStr (List PyStr))
    (model : PyStr → Except PyStr PyStr)
    (jsonLoads : PyStr → Except PyStr Json)
    (filename : PyStr) (pdf_bytes : List Nat) (n1 n2 n3 : Nat)
    (pages : List PyStr) (raw : PyStr) (qd : Json)
    (mcqs : List MCQQuestion) (e : PyStr)
    (hread : readPdf pdf_bytes = .ok pages)
    (hlen : 100 ≤ (pyStrip (joinPages pages)).length)
    (hmodel : model (build_prompt (pyStrip (joinPages pages)) n1 n2 n3) = .ok raw)
    (hparse : jsonLoads (clean_response raw) = .ok qd)
    (hm : shape_mcq qd = .ok mcqs)
    (hs : shape_short qd = .error e) :
    quiz_pipeline_after_size readPdf model jsonLoads filename pdf_bytes n1 n2 n3 =
      .error (.other e) := by
  simp [quiz_pipeline_after_size, extract_text_from_pdf, generate_questions_with_azure,
    hread, hmodel, hparse, hm, hs, liftPy, except_bind_ok, except_bind_error,
    Nat.not_lt.mpr hlen]

lemma after_size_blanks_shape_error
    (readPdf : List Nat → Except PyStr (List PyStr))
    (model : PyStr → Except PyStr PyStr)
    (jsonLoads : PyStr → Except PyStr Json)
    (filename : PyStr) (pdf_bytes : List Nat) (n1 n2 n3 : Nat)
    (pages : List PyStr) (raw : PyStr) (qd : Json)
    (mcqs : List MCQQuestion) (shorts : List ShortAnswerQuestion) (e : PyStr)
    (hread : readPdf pdf_bytes = .ok pages)
    (hlen : 100 ≤ (pyStrip (joinPages pages)).length)
    (hmodel : model (build_prompt (pyStrip (joinPages pages)) n1 n2 n3) = .ok raw)
    (hparse : jsonLoads (clean_response raw) = .ok qd)
    (hm : shape_mcq qd = .ok mcqs)
    (hs : shape_short qd = .ok shorts)
    (hb : shape_blanks qd = .error e) :
    quiz_pipeline_after_size readPdf model jsonLoads filename pdf_bytes n1 n2 n3 =
      .error (.other e) := by
  simp [quiz_pipeline_after_size, extract_text_from_pdf, generate_questions_with_azure,
    hread, hmodel, hparse, hm, hs, hb, liftPy, except_bind_ok, except_bind_error,
    Nat.not_lt.mpr hlen]

lemma shape_mcq_empty_of_absent (fields : List (PyStr × Json))
    (hnone : jsonLookup fields (lit "mcq") = none) :
    shape_mcq (.obj fields) = .ok [] := by
  simp [shape_mcq, dictGet, hnone, asJsonList, mapExcept, except_bind_ok]

lemma shape_short_empty_of_absent (fields : List (PyStr × Json))
    (hnone : jsonLookup fields (lit "short_answer") = none) :
    shape_short (.obj fields) = .ok [] := by
  simp [shape_short, dictGet, hnone, asJsonList, mapExcept, except_bind_ok]

lemma shape_blanks_empty_of_absent (fields : List (PyStr × Json))
    (hnone : jsonLookup fields (lit "fill_in_the_blanks") = none) :
    shape_blanks (.obj fields) = .ok [] := by
  simp [shape_blanks, dictGet, hnone, asJsonList, mapExcept, except_bind_ok]

/-! Substring occurrence, for the prompt-content claims. -/

/-- The needle occurs as a contiguous substring of the hay. -/
def occursIn (needle hay : PyStr) : Prop := ∃ a b, hay = a ++ needle ++ b

lemma occursIn_last (a n : PyStr) : occursIn n (a ++ n) := ⟨a, [], by simp⟩

lemma occursIn_before (b : PyStr) {n h : PyStr} (hh : occursIn n h) : occursIn n (h ++ b) := by
  rcases hh with ⟨x, y, hxy⟩
  exact ⟨x, y ++ b, by simp [hxy, List.append_assoc]⟩

/-! Helper lemmas about `strip` and the code-fence cleaning, for the
wrapping-invariance claim. -/

/-- All characters of a padding string are whitespace. -/
def allWhitespace (s : PyStr) : Prop := ∀ c ∈ s, c.isWhitespace = true

/-- A completion wrapped in a fenced-code block: optional whitespace
padding, an opening fence (optionally tagged `json`), a newline, the
payload, a newline plus closing fence, optional whitespace padding. -/
def fenceWrap (tag : Bool) (ws1 ws2 s : PyStr) : PyStr :=
  ws1 ++ (if tag then lit "```json" else lit "```") ++ lit "\n" ++ s ++ lit "\n```" ++ ws2

lemma lit_nlfence_split : lit "\n```" = lit "\n" ++ lit "```" := by decide

lemma dropWhile_append_of_all {p : Char → Bool} {a : PyStr} (t : PyStr)
    (ha : ∀ c ∈ a, p c = true) :
    (a ++ t).dropWhile p = t.dropWhile p := by
  induction a with
  | nil => rfl
  | cons x xs ih =>
    rw [List.cons_append, List.dropWhile_cons, if_pos (ha x (by simp))]
    exact ih fun c hc => ha c (by simp [hc])

lemma dropWhile_append_of_ne_nil {p : Char → Bool} {a : PyStr} (t : PyStr) {c : Char} {r : PyStr}
    (ha : a.dropWhile p = c :: r) : (a ++ t).dropWhile p = c :: (r ++ t) := by
  induction a with
  | nil => exact absurd ha (by simp)
  | cons x xs ih =>
    rw [List.dropWhile_cons] at ha
    by_cases hx : p x = true
    · rw [if_pos hx] at ha
      rw [List.cons_append, List.dropWhile_cons, if_pos hx]
      exact ih ha
    · rw [if_neg hx] at ha
      cases ha
      rw [List.cons_append, List.dropWhile_cons, if_neg hx]

lemma dropWhile_append_self {p : Char → Bool} {a : PyStr} (t : PyStr)
    (ha : a.dropWhile p = a) (hne : a ≠ []) : (a ++ t).dropWhile p = a ++ t := by
  cases hcr : a with
  | nil => exact absurd hcr hne
  | cons c r =>
    have h2 : List.dropWhile p (c :: r) = c :: r := hcr ▸ ha
    rw [dropWhile_append_of_ne_nil t h2]
    simp

lemma rdropWhile_append_of_all {p : Char → Bool} {b : PyStr} (t : PyStr)
    (hb : ∀ c ∈ b, p c = true) :
    List.rdropWhile p (t ++ b) = List.rdropWhile p t := by
  unfold List.rdropWhile
  rw [List.reverse_append, dropWhile_append_of_all _ fun c hc => hb c (List.mem_reverse.mp hc)]

lemma rdropWhile_append_self {p : Char → Bool} {b : PyStr} (t : PyStr)
    (hb : List.rdropWhile p b = b) (hne : b ≠ []) :
    List.rdropWhile p (t ++ b) = t ++ b := by
  unfold List.rdropWhile at hb ⊢
  have hbrev : b.reverse.dropWhile p = b.reverse := by
    have hc := congrArg List.reverse hb
    rwa [List.reverse_reverse] at hc
  rw [List.reverse_append, dropWhile_append_self _ hbrev (by simp [hne]),
    List.reverse_append, List.reverse_reverse, List.reverse_reverse]

lemma pyStrip_pad {a b : PyStr} (s : PyStr)
    (ha : allWhitespace a) (hb : allWhitespace b) :
    pyStrip (a ++ s ++ b) = pyStrip s := by
  unfold pyStrip
  rw [List.append_assoc, dropWhile_append_of_all _ ha]
  cases hu : List.dropWhile Char.isWhitespace s with
  | nil =>
    have hsb : List.dropWhile Char.isWhitespace (s ++ b) = List.dropWhile Char.isWhitespace b := by
      have hall : ∀ c ∈ s, Char.isWhitespace c = true := List.dropWhile_eq_nil_iff.mp hu
      exact dropWhile_append_of_all _ hall
    have hbnil : List.dropWhile Char.isWhitespace b = [] := List.dropWhile_eq_nil_iff.mpr hb
    rw [hsb, hbnil]
  | cons c r =>
    rw [dropWhile_append_of_ne_nil _ hu, ← List.cons_append]
    exact rdropWhile_append_of_all _ hb

lemma length_dropWhile_le (p : Char → Bool) (l : PyStr) :
    (l.dropWhile p).length ≤ l.length := by
  induction l with
  | nil => simp
  | cons x xs ih =>
    rw [List.dropWhile_cons]
    split
    · exact le_trans ih (by simp)
    · exact le_refl _

lemma dropWhile_rdropWhile_self {p : Char → Bool} {u : PyStr} (hu : u.dropWhile p = u) :
    (List.rdropWhile p u).dropWhile p = List.rdropWhile p u := by
  cases hw : List.rdropWhile p u with
  | nil => rfl
  | cons c r =>
    have hdecomp : (c :: r) ++ (List.takeWhile p u.reverse).reverse = u := by
      rw [← hw]
      unfold List.rdropWhile
      rw [← List.reverse_append, List.takeWhile_append_dropWhile, List.reverse_reverse]
    have hu2 := hdecomp.symm
    rw [List.cons_append] at hu2
    have hfc : p c = false := by
      by_contra hp
      rw [Bool.not_eq_false] at hp
      have hx := hu
      rw [hu2, List.dropWhile_cons, if_pos hp] at hx
      have hle := length_dropWhile_le p (r ++ (List.takeWhile p u.reverse).reverse)
      rw [hx] at hle
      simp at hle
    rw [List.dropWhile_cons, if_neg (by simp [hfc])]

lemma pyStrip_idem (s : PyStr) : pyStrip (pyStrip s) = pyStrip s := by
  unfold pyStrip
  rw [dropWhile_rdropWhile_self (List.dropWhile_idempotent Char.isWhitespace s),
    List.rdropWhile_idempotent]

lemma pyStartsWith_append_self (p t : PyStr) : pyStartsWith (p ++ t) p = true := by
  unfold pyStartsWith
  rw [List.take_left]
  simp

lemma pyStartsWith_cons_ne {c d : Char} (hcd : ¬ c = d) (t p : PyStr) :
    pyStartsWith (c :: t) (d :: p) = false := by
  unfold pyStartsWith
  rw [List.length_cons, List.take_succ_cons]
  exact beq_eq_false_iff_ne.mpr (by simp [hcd])

lemma pyStartsWith_mismatch4 {c1 c2 c3 d e : Char} (hde : ¬ d = e) (t p : PyStr) :
    pyStartsWith (c1 :: c2 :: c3 :: d :: t) (c1 :: c2 :: c3 :: e :: p) = false := by
  unfold pyStartsWith
  rw [List.length_cons, List.length_cons, List.length_cons, List.length_cons,
    List.take_succ_cons, List.take_succ_cons, List.take_succ_cons, List.take_succ_cons]
  exact beq_eq_false_iff_ne.mpr (by simp [hde])

lemma pyEndsWith_append_self (A F : PyStr) : pyEndsWith (A ++ F) F = true := by
  unfold pyEndsWith
  rw [List.length_append, Nat.add_sub_cancel, List.drop_left]
  simp [Nat.le_add_left]

lemma take_sub_append (A F : PyStr) :
    (A ++ F).take ((A ++ F).length - F.length) = A := by
  rw [List.length_append, Nat.add_sub_cancel, List.take_left]

lemma pyStrip_wrap_core (hdr ws1 ws2 s : PyStr)
    (h1 : allWhitespace ws1) (h2 : allWhitespace ws2)
    (hh : hdr.dropWhile Char.isWhitespace = hdr) (hne : hdr ≠ []) :
    pyStrip (ws1 ++ (hdr ++ (lit "\n" ++ (s ++ (lit "\n```" ++ ws2))))) =
      hdr ++ (lit "\n" ++ (s ++ lit "\n```")) := by
  unfold pyStrip
  rw [dropWhile_append_of_all _ h1, dropWhile_append_self _ hh hne,
    show hdr ++ (lit "\n" ++ (s ++ (lit "\n```" ++ ws2))) =
      (hdr ++ (lit "\n" ++ (s ++ lit "\n```"))) ++ ws2 from by simp [List.append_assoc],
    rdropWhile_append_of_all _ h2,
    show hdr ++ (lit "\n" ++ (s ++ lit "\n```")) =
      (hdr ++ (lit "\n" ++ (s ++ lit "\n"))) ++ lit "```" from by
        simp [lit_nlfence_split, List.append_assoc],
    rdropWhile_append_self _ (by decide) (by decide)]

lemma clean_response_fenceWrap (tag : Bool) (ws1 ws2 s : PyStr)
    (h1 : allWhitespace ws1) (h2 : allWhitespace ws2) :
    clean_response (fenceWrap tag ws1 ws2 s) = pyStrip s := by
  have e4 : pyStartsWith (lit "\n" ++ (s ++ lit "\n```")) (lit "```") = false := by
    rw [show lit "\n" ++ (s ++ lit "\n```") = '\n' :: (s ++ lit "\n```") from by
        simp [show lit "\n" = ['\n'] from by decide],
      show lit "```" = '\x60' :: lit "``" from by decide]
    exact pyStartsWith_cons_ne (by decide) _ _
  have hsplit : lit "\n" ++ (s ++ lit "\n```") = (lit "\n" ++ s ++ lit "\n") ++ lit "```" := by
    simp [lit_nlfence_split, List.append_assoc]
  have e5 : pyEndsWith (lit "\n" ++ (s ++ lit "\n```")) (lit "```") = true := by
    rw [hsplit]
    exact pyEndsWith_append_self _ _
  have e7 : pyStrip (lit "\n" ++ s ++ lit "\n") = pyStrip s :=
    pyStrip_pad s (by unfold allWhitespace; decide) (by unfold allWhitespace; decide)
  cases tag with
  | true =>
    have hX : fenceWrap true ws1 ws2 s =
        ws1 ++ (lit "```json" ++ (lit "\n" ++ (s ++ (lit "\n```" ++ ws2)))) := by
      simp [fenceWrap, List.append_assoc]
    have e1 : pyStrip (fenceWrap true ws1 ws2 s) =
        lit "```json" ++ (lit "\n" ++ (s ++ lit "\n```")) := by
      rw [hX]
      exact pyStrip_wrap_core _ ws1 ws2 s h1 h2 (by decide) (by decide)
    have e2 : pyStartsWith (lit "```json" ++ (lit "\n" ++ (s ++ lit "\n```"))) (lit "```json") =
        true := pyStartsWith_append_self _ _
    have e3 : (lit "```json" ++ (lit "\n" ++ (s ++ lit "\n```"))).drop 7 =
        lit "\n" ++ (s ++ lit "\n```") := by
      rw [show (7 : Nat) = (lit "```json").length from rfl, List.drop_left]
    simp [clean_response, e1, e2, e3, e4, e5]
    rw [show (lit "\n").length + (s.length + (lit "\n```").length) - 3 =
        (lit "\n" ++ s ++ lit "\n").length from by
      simp only [List.length_append, show (lit "\n").length = 1 from rfl,
        show (lit "\n```").length = 4 from rfl]
      omega, hsplit, List.take_left]
    exact e7
  | false =>
    have hX : fenceWrap false ws1 ws2 s =
        ws1 ++ (lit "```" ++ (lit "\n" ++ (s ++ (lit "\n```" ++ ws2)))) := by
      simp [fenceWrap, List.append_assoc]
    have e1 : pyStrip (fenceWrap false ws1 ws2 s) =
        lit "```" ++ (lit "\n" ++ (s ++ lit "\n```")) := by
      rw [hX]
      exact pyStrip_wrap_core _ ws1 ws2 s h1 h2 (by decide) (by decide)
    have e2 : pyStartsWith (lit "```" ++ (lit "\n" ++ (s ++ lit "\n```"))) (lit "```json") =
        false := by
      rw [show lit "```" ++ (lit "\n" ++ (s ++ lit "\n```")) =
          '\x60' :: '\x60' :: '\x60' :: '\n' :: (s ++ lit "\n```") from by
            simp [show lit "```" = ['\x60', '\x60', '\x60'] from by decide,
              show lit "\n" = ['\n'] from by decide],
        show lit "```json" = '\x60' :: '\x60' :: '\x60' :: 'j' :: lit "son" from by decide]
      exact pyStartsWith_mismatch4 (by decide) _ _
    have e2b : pyStartsWith (lit "```" ++ (lit "\n" ++ (s ++ lit "\n```"))) (lit "```") =
        true := pyStartsWith_append_self _ _
    have e3 : (lit "```" ++ (lit "\n" ++ (s ++ lit "\n```"))).drop 3 =
        lit "\n" ++ (s ++ lit "\n```") := by
      rw [show (3 : Nat) = (lit "```").length from rfl, List.drop_left]
    simp [clean_response, e1, e2, e2b, e3, e4, e5]
    rw [show (lit "\n").length + (s.length + (lit "\n```").length) - 3 =
        (lit "\n" ++ s ++ lit "\n").length from by
      simp only [List.length_append, show (lit "\n").length = 1 from rfl,
        show (lit "\n```").length = 4 from rfl]
      omega, hsplit, List.take_left]
    exact e7

lemma pyStartsWith_json_imp (t : PyStr)
    (h : pyStartsWith t (lit "```json") = true) : pyStartsWith t (lit "```") = true := by
  unfold pyStartsWith at h ⊢
  rw [beq_iff_eq] at h
  have h3 : t.take (lit "```").length = (t.take (lit "```json").length).take (lit "```").length := by
    rw [List.take_take]
    rfl
  rw [h3, h]
  decide

lemma clean_response_of_fence_free (s : PyStr)
    (hstart : pyStartsWith (pyStrip s) (lit "```") = false)
    (hend : pyEndsWith (pyStrip s) (lit "```") = false) :
    clean_response s = pyStrip s := by
  have hjson : pyStartsWith (pyStrip s) (lit "```json") = false := by
    by_contra h
    rw [Bool.not_eq_false] at h
    rw [pyStartsWith_json_imp _ h] at hstart
    cases hstart
  simp [clean_response, hjson, hstart, hend, pyStrip_idem]

/-- A decoder consistent with `json.loads` on the two cleaned strings of
the C3 counterexample: the empty object decodes, any other string fails
with the decoder's standard message. -/
def jsonLoadsCE : PyStr → Except PyStr Json :=
  fun t => if t = lit "\x7b\x7d" then .ok (.obj [])
    else .error (lit "Expecting value: line 1 column 1 (char 0)")

/-! Witness fixtures: a concrete long-enough page text and concrete decoded
model documents, shared by the witnesses below. -/

/-- A concrete page text of more than 100 characters. -/
def wText : PyStr :=
  lit "The mitochondrion is the powerhouse of the cell; it produces ATP through oxidative phosphorylation in eukaryotes."

/-- A concrete well-formed decoded model document. -/
def wGoodJson : Json :=
  .obj [
    (lit "mcq", .arr [.obj [
      (lit "question", .str (lit "What produces ATP?")),
      (lit "options", .arr [.str (lit "A) Mitochondria"), .str (lit "B) Ribosomes")]),
      (lit "correct_answer", .str (lit "A")),
      (lit "explanation", .str (lit "Oxidative phosphorylation"))]]),
    (lit "short_answer", .arr [.obj [
      (lit "question", .str (lit "Describe ATP synthesis.")),
      (lit "expected_answer", .str (lit "Via the electron transport chain."))]]),
    (lit "fill_in_the_blanks", .arr [.obj [
      (lit "question", .str (lit "The _____ is the powerhouse of the cell.")),
      (lit "answer", .str (lit "mitochondrion")),
      (lit "hint", .str (lit "An organelle"))]])]

/-- A concrete mcq record with no `correct_answer` field. -/
def wBadRecord : Json :=
  .obj [
    (lit "question", .str (lit "What produces ATP?")),
    (lit "options", .arr [.str (lit "A) Mitochondria"), .str (lit "B) Ribosomes")])]

/-- A concrete decoded model document whose only mcq record lacks
`correct_answer`. -/
def wBadJson : Json := .obj [(lit "mcq", .arr [wBadRecord])]

/-- C1: For every valid document whose extracted text is at least 100
characters and every well-formed model response, the handler's QuizResult
has `total_questions` equal to the sum of the lengths of the three
constructed question lists (mcq, short_answer, fill_in_the_blanks), with
`success = true`. -/
theorem claim1_success_total_is_sum
    (readPdf : List Nat → Except PyStr (List PyStr))
    (model : PyStr → Except PyStr PyStr)
    (jsonLoads : PyStr → Except PyStr Json)
    (filename : PyStr) (pdf_bytes : List Nat) (n1 n2 n3 : Nat)
    (pages : List PyStr) (raw : PyStr) (qd : Json)
    (mcqs : List MCQQuestion) (shorts : List ShortAnswerQuestion) (blanks : List FillInTheBlank)
    (hfn : pyEndsWith filename (lit ".pdf") = true)
    (hsize : pdf_bytes.length ≤ 10 * 1024 * 1024)
    (hread : readPdf pdf_bytes = .ok pages)
    (hlen : 100 ≤ (pyStrip (joinPages pages)).length)
    (hmodel : model (build_prompt (pyStrip (joinPages pages)) n1 n2 n3) = .ok raw)
    (hparse : jsonLoads (clean_response raw) = .ok qd)
    (hm : shape_mcq qd = .ok mcqs)
    (hs : shape_short qd = .ok shorts)
    (hb : shape_blanks qd = .ok blanks) :
    ∃ r : QuizResponse,
      generate_quiz readPdf model jsonLoads filename pdf_bytes n1 n2 n3 = .ok r ∧
      r.success = true ∧
      r.total_questions =
        r.mcq_questions.length + r.short_answer_questions.length + r.fill_in_the_blanks.length := by
  rw [generate_quiz_eq_after_size readPdf model jsonLoads filename pdf_bytes n1 n2 n3 hfn hsize,
    after_size_success readPdf model jsonLoads filename pdf_bytes n1 n2 n3 pages raw qd
      mcqs shorts blanks hread hlen hmodel hparse hm hs hb]
  exact ⟨_, rfl, rfl, rfl⟩

/-- C1 witness: a concrete run through the full handler returning one
question of each kind. -/
theorem claim1_success_total_is_sum_witness :
    pyEndsWith (lit "doc.pdf") (lit ".pdf") = true ∧
    100 ≤ (pyStrip (joinPages [wText])).length ∧
    ∃ r : QuizResponse,
      generate_quiz (fun _ => .ok [wText]) (fun _ => .ok (lit "x")) (fun _ => .ok wGoodJson)
        (lit "doc.pdf") [] 5 3 3 = .ok r ∧
      r.success = true ∧
      r.total_questions =
        r.mcq_questions.length + r.short_answer_questions.length + r.fill_in_the_blanks.length :=
  ⟨by decide, by decide,
    claim1_success_total_is_sum (fun _ => .ok [wText]) (fun _ => .ok (lit "x"))
      (fun _ => .ok wGoodJson) (lit "doc.pdf") [] 5 3 3 [wText] (lit "x") wGoodJson
      [⟨lit "What produces ATP?", [lit "A) Mitochondria", lit "B) Ribosomes"], lit "A",
        some (lit "Oxidative phosphorylation")⟩]
      [⟨lit "Describe ATP synthesis.", lit "Via the electron transport chain."⟩]
      [⟨lit "The _____ is the powerhouse of the cell.", lit "mitochondrion",
        some (lit "An organelle")⟩]
      (by decide) (by decide) rfl (by decide) rfl rfl rfl rfl rfl⟩

/-- C2 counterexample: the catch-all boundary does not strip detail — the
exception's own string is echoed verbatim in the `error` field of the
response, so the response depends on (and exposes) the fault's text. -/
theorem claim2_error_field_leaks_detail :
    (global_exception_handler (lit "KeyError: AZURE_OPENAI_API_KEY")).content.error =
      lit "KeyError: AZURE_OPENAI_API_KEY" ∧
    global_exception_handler (lit "KeyError: AZURE_OPENAI_API_KEY") ≠
      global_exception_handler (lit "x") :=
  ⟨rfl, by decide⟩

/-- C2 amended: for every uncaught exception, the catch-all boundary
returns status 500 with `success = false` and the fixed message
"Internal server error", and places the exception's string verbatim in
the `error` field; the handler is a total function, so no unhandled fault
crashes the request-handling context, but the exception string itself is
echoed rather than stripped. -/
theorem claim2_catch_all_fixed_message (exc : PyStr) :
    (global_exception_handler exc).status_code = 500 ∧
    (global_exception_handler exc).content.success = false ∧
    (global_exception_handler exc).content.message = lit "Internal server error" ∧
    (global_exception_handler exc).content.error = exc :=
  ⟨rfl, rfl, rfl, rfl⟩

/-- C3 counterexample: for the raw completion `s = "```json {}"` (a string
that itself begins with a fence marker), cleaning `s` yields `"{}"` while
cleaning the fence-wrapped form of `s` yields `"```json {}"`; under a
decoder that agrees with `json.loads` on these two cleaned strings (the
empty object parses, the fence-prefixed text does not), the two decode
results differ.  Hence the claim is false for arbitrary raw strings. -/
theorem claim3_fenced_payload_counterexample :
    clean_response (lit "```json \x7b\x7d") = lit "\x7b\x7d" ∧
    clean_response (fenceWrap true [] [] (lit "```json \x7b\x7d")) = lit "```json \x7b\x7d" ∧
    jsonLoadsCE (clean_response (lit "```json \x7b\x7d")) = .ok (.obj []) ∧
    jsonLoadsCE (clean_response (fenceWrap true [] [] (lit "```json \x7b\x7d"))) =
      .error (lit "Expecting value: line 1 column 1 (char 0)") ∧
    jsonLoadsCE (clean_response (fenceWrap true [] [] (lit "```json \x7b\x7d"))) ≠
      jsonLoadsCE (clean_response (lit "```json \x7b\x7d")) := by
  have c1 : clean_response (lit "```json \x7b\x7d") = lit "\x7b\x7d" := by decide
  have c2 : clean_response (fenceWrap true [] [] (lit "```json \x7b\x7d")) =
      lit "```json \x7b\x7d" := by decide
  have j1 : jsonLoadsCE (lit "\x7b\x7d") = .ok (.obj []) := by
    unfold jsonLoadsCE
    rw [if_pos rfl]
  have j2 : jsonLoadsCE (lit "```json \x7b\x7d") =
      .error (lit "Expecting value: line 1 column 1 (char 0)") := by
    unfold jsonLoadsCE
    rw [if_neg (by decide)]
  refine ⟨c1, c2, by rw [c1, j1], by rw [c2, j2], ?_⟩
  rw [c1, c2, j1, j2]
  intro h
  exact Except.noConfusion h

/-- C3 amended: for every raw completion string whose stripped form
neither begins nor ends with a fence marker, and every wrapping of it in
a fenced-code block (with or without the json tag, fences on their own
lines, with surrounding whitespace), the cleaning step produces the same
string for the wrapped form as for the raw string, so any decoder —
in particular the pipeline's — produces the same decoded structure. -/
theorem claim3_fence_wrapping_invariant (tag : Bool) (ws1 ws2 s : PyStr)
    (h1 : allWhitespace ws1) (h2 : allWhitespace ws2)
    (hstart : pyStartsWith (pyStrip s) (lit "```") = false)
    (hend : pyEndsWith (pyStrip s) (lit "```") = false) :
    clean_response (fenceWrap tag ws1 ws2 s) = clean_response s ∧
    ∀ jsonLoads : PyStr → Except PyStr Json,
      jsonLoads (clean_response (fenceWrap tag ws1 ws2 s)) = jsonLoads (clean_response s) := by
  have h := (clean_response_fenceWrap tag ws1 ws2 s h1 h2).trans
    (clean_response_of_fence_free s hstart hend).symm
  exact ⟨h, fun f => congrArg f h⟩

/-- C3 witness: a concrete fence-free JSON payload wrapped with tag and
whitespace padding cleans identically to the bare payload. -/
theorem claim3_fence_wrapping_invariant_witness :
    allWhitespace (lit " ") ∧ allWhitespace (lit "  ") ∧
    pyStartsWith (pyStrip (lit "\x7b\"k\": 1\x7d")) (lit "```") = false ∧
    pyEndsWith (pyStrip (lit "\x7b\"k\": 1\x7d")) (lit "```") = false ∧
    (clean_response (fenceWrap true (lit " ") (lit "  ") (lit "\x7b\"k\": 1\x7d")) =
        clean_response (lit "\x7b\"k\": 1\x7d") ∧
      ∀ jsonLoads : PyStr → Except PyStr Json,
        jsonLoads (clean_response (fenceWrap true (lit " ") (lit "  ") (lit "\x7b\"k\": 1\x7d"))) =
          jsonLoads (clean_response (lit "\x7b\"k\": 1\x7d"))) :=
  ⟨by unfold allWhitespace; decide, by unfold allWhitespace; decide, by decide, by decide,
    claim3_fence_wrapping_invariant true (lit " ") (lit "  ") (lit "\x7b\"k\": 1\x7d")
      (by unfold allWhitespace; decide) (by unfold allWhitespace; decide)
      (by decide) (by decide)⟩

/-- C4: a request whose extracted text is empty or shorter than 100
characters is rejected with the 400 "text too short" error, and the model
client is never invoked: the rejection holds for every model oracle, and
the handler's result is identical under any two model oracles. -/
theorem claim4_short_text_rejected_no_model_call
    (readPdf : List Nat → Except PyStr (List PyStr))
    (model model' : PyStr → Except PyStr PyStr)
    (jsonLoads : PyStr → Except PyStr Json)
    (filename : PyStr) (pdf_bytes : List Nat) (n1 n2 n3 : Nat)
    (pages : List PyStr)
    (hfn : pyEndsWith filename (lit ".pdf") = true)
    (hsize : pdf_bytes.length ≤ 10 * 1024 * 1024)
    (hread : readPdf pdf_bytes = .ok pages)
    (hshort : (pyStrip (joinPages pages)).length < 100) :
    generate_quiz readPdf model jsonLoads filename pdf_bytes n1 n2 n3 =
      .error ⟨400, lit "PDF text too short. Need at least 100 characters"⟩ ∧
    generate_quiz readPdf model jsonLoads filename pdf_bytes n1 n2 n3 =
      generate_quiz readPdf model' jsonLoads filename pdf_bytes n1 n2 n3 := by
  have hA : generate_quiz readPdf model jsonLoads filename pdf_bytes n1 n2 n3 =
      .error ⟨400, lit "PDF text too short. Need at least 100 characters"⟩ := by
    rw [generate_quiz_eq_after_size readPdf model jsonLoads filename pdf_bytes n1 n2 n3 hfn hsize,
      after_size_reject_short_text readPdf model jsonLoads filename pdf_bytes n1 n2 n3 pages
        hread hshort]
    rfl
  have hB : generate_quiz readPdf model' jsonLoads filename pdf_bytes n1 n2 n3 =
      .error ⟨400, lit "PDF text too short. Need at least 100 characters"⟩ := by
    rw [generate_quiz_eq_after_size readPdf model' jsonLoads filename pdf_bytes n1 n2 n3 hfn hsize,
      after_size_reject_short_text readPdf model' jsonLoads filename pdf_bytes n1 n2 n3 pages
        hread hshort]
    rfl
  exact ⟨hA, hA.trans hB.symm⟩

/-- C4 witness: a four-character extracted text is rejected, identically
under a succeeding and a failing model oracle. -/
theorem claim4_short_text_rejected_no_model_call_witness :
    pyEndsWith (lit "doc.pdf") (lit ".pdf") = true ∧
    (pyStrip (joinPages [lit "tiny"])).length < 100 ∧
    (generate_quiz (fun _ => .ok [lit "tiny"]) (fun _ => .ok (lit "x")) (fun _ => .ok wGoodJson)
        (lit "doc.pdf") [] 5 3 3 =
      .error ⟨400, lit "PDF text too short. Need at least 100 characters"⟩ ∧
    generate_quiz (fun _ => .ok [lit "tiny"]) (fun _ => .ok (lit "x")) (fun _ => .ok wGoodJson)
        (lit "doc.pdf") [] 5 3 3 =
      generate_quiz (fun _ => .ok [lit "tiny"]) (fun _ => .error (lit "boom"))
        (fun _ => .ok wGoodJson) (lit "doc.pdf") [] 5 3 3) :=
  ⟨by decide, by decide,
    claim4_short_text_rejected_no_model_call (fun _ => .ok [lit "tiny"]) (fun _ => .ok (lit "x"))
      (fun _ => .error (lit "boom")) (fun _ => .ok wGoodJson) (lit "doc.pdf") [] 5 3 3
      [lit "tiny"] (by decide) (by decide) rfl (by decide)⟩

/-- C5: for every model response that decodes as the expected structured
document but contains, in any of its three named lists, a record lacking
a required field (for example an mcq record with no correct_answer) or a
field of the wrong shape (a non-mapping record, a non-string required or
optional field, or an ill-shaped options list), the pipeline fails with a
validation error surfaced as a 500-class error; the handler returns an
error value — it does not crash. -/
theorem claim5_invalid_record_yields_500
    (readPdf : List Nat → Except PyStr (List PyStr))
    (model : PyStr → Except PyStr PyStr)
    (jsonLoads : PyStr → Except PyStr Json)
    (filename : PyStr) (pdf_bytes : List Nat) (n1 n2 n3 : Nat)
    (pages : List PyStr) (raw : PyStr) (fields : List (PyStr × Json))
    (hfn : pyEndsWith filename (lit ".pdf") = true)
    (hsize : pdf_bytes.length ≤ 10 * 1024 * 1024)
    (hread : readPdf pdf_bytes = .ok pages)
    (hlen : 100 ≤ (pyStrip (joinPages pages)).length)
    (hmodel : model (build_prompt (pyStrip (joinPages pages)) n1 n2 n3) = .ok raw)
    (hparse : jsonLoads (clean_response raw) = .ok (.obj fields))
    (hbad : BadDocument fields) :
    ∃ d : PyStr,
      generate_quiz readPdf model jsonLoads filename pdf_bytes n1 n2 n3 =
        .error ⟨500, d⟩ := by
  rw [generate_quiz_eq_after_size readPdf model jsonLoads filename pdf_bytes n1 n2 n3 hfn hsize]
  cases hm : shape_mcq (.obj fields) with
  | error e =>
    refine ⟨lit "Error: " ++ e, ?_⟩
    rw [after_size_mcq_shape_error readPdf model jsonLoads filename pdf_bytes n1 n2 n3 pages raw
      (.obj fields) e hread hlen hmodel hparse hm]
    rfl
  | ok mcqs =>
    cases hs : shape_short (.obj fields) with
    | error e =>
      refine ⟨lit "Error: " ++ e, ?_⟩
      rw [after_size_short_shape_error readPdf model jsonLoads filename pdf_bytes n1 n2 n3 pages
        raw (.obj fields) mcqs e hread hlen hmodel hparse hm hs]
      rfl
    | ok shorts =>
      cases hb : shape_blanks (.obj fields) with
      | error e =>
        refine ⟨lit "Error: " ++ e, ?_⟩
        rw [after_size_blanks_shape_error readPdf model jsonLoads filename pdf_bytes n1 n2 n3
          pages raw (.obj fields) mcqs shorts e hread hlen hmodel hparse hm hs hb]
        rfl
      | ok blanks =>
        exfalso
        rcases hbad with ⟨ms, q, hf, hq, hb2⟩ | ⟨ss, q, hf, hq, hb2⟩ | ⟨bs, q, hf, hq, hb2⟩
        · rcases shape_mcq_error_of_bad fields ms q hf hq hb2 with ⟨e, he⟩
          rw [he] at hm
          exact Except.noConfusion hm
        · rcases shape_short_error_of_bad fields ss q hf hq hb2 with ⟨e, he⟩
          rw [he] at hs
          exact Except.noConfusion hs
        · rcases shape_blanks_error_of_bad fields bs q hf hq hb2 with ⟨e, he⟩
          rw [he] at hb
          exact Except.noConfusion hb

/-- C5 witness: a decoded document whose single mcq record has no
`correct_answer` field yields a 500-class error from the full handler. -/
theorem claim5_invalid_record_yields_500_witness :
    BadDocument [(lit "mcq", Json.arr [wBadRecord])] ∧
    ∃ d : PyStr,
      generate_quiz (fun _ => .ok [wText]) (fun _ => .ok (lit "x")) (fun _ => .ok wBadJson)
        (lit "doc.pdf") [] 5 3 3 = .error ⟨500, d⟩ :=
  have hbad : BadDocument [(lit "mcq", Json.arr [wBadRecord])] :=
    Or.inl ⟨[wBadRecord], wBadRecord, rfl, List.mem_singleton.mpr rfl,
      Or.inr ⟨[(lit "question", .str (lit "What produces ATP?")),
        (lit "options", .arr [.str (lit "A) Mitochondria"), .str (lit "B) Ribosomes")])], rfl,
        Or.inr (Or.inr (Or.inl (Or.inl rfl)))⟩⟩
  ⟨hbad,
    claim5_invalid_record_yields_500 (fun _ => .ok [wText]) (fun _ => .ok (lit "x"))
      (fun _ => .ok wBadJson) (lit "doc.pdf") [] 5 3 3 [wText] (lit "x")
      [(lit "mcq", .arr [wBadRecord])]
      (by decide) (by decide) rfl (by decide) rfl rfl hbad⟩

/-- C6: a payload of exactly 10 MiB passes the size check — the handler's
result is that of the post-size pipeline, whose definition contains no
size rejection — while a payload of one byte more is rejected with the
400 "file too large" error. -/
theorem claim6_size_boundary
    (readPdf : List Nat → Except PyStr (List PyStr))
    (model : PyStr → Except PyStr PyStr)
    (jsonLoads : PyStr → Except PyStr Json)
    (filename : PyStr) (bytesAt bytesOver : List Nat) (n1 n2 n3 : Nat)
    (hfn : pyEndsWith filename (lit ".pdf") = true)
    (hAt : bytesAt.length = 10 * 1024 * 1024)
    (hOver : bytesOver.length = 10 * 1024 * 1024 + 1) :
    generate_quiz readPdf model jsonLoads filename bytesAt n1 n2 n3 =
      exception_boundary (quiz_pipeline_after_size readPdf model jsonLoads
        filename bytesAt n1 n2 n3) ∧
    generate_quiz readPdf model jsonLoads filename bytesOver n1 n2 n3 =
      .error ⟨400, lit "File too large. Max 10MB"⟩ := by
  constructor
  · exact generate_quiz_eq_after_size readPdf model jsonLoads filename bytesAt n1 n2 n3 hfn
      (le_of_eq hAt)
  · exact generate_quiz_reject_size readPdf model jsonLoads filename bytesOver n1 n2 n3 hfn
      (by rw [hOver]; exact Nat.lt_succ_self _)

/-- C6 witness: concrete payloads of exactly 10 MiB and 10 MiB + 1. -/
theorem claim6_size_boundary_witness :
    (List.replicate (10 * 1024 * 1024) (0 : Nat)).length = 10 * 1024 * 1024 ∧
    (List.replicate (10 * 1024 * 1024 + 1) (0 : Nat)).length = 10 * 1024 * 1024 + 1 ∧
    (generate_quiz (fun _ => .ok [wText]) (fun _ => .ok (lit "x")) (fun _ => .ok wGoodJson)
        (lit "doc.pdf") (List.replicate (10 * 1024 * 1024) 0) 5 3 3 =
      exception_boundary (quiz_pipeline_after_size (fun _ => .ok [wText])
        (fun _ => .ok (lit "x")) (fun _ => .ok wGoodJson)
        (lit "doc.pdf") (List.replicate (10 * 1024 * 1024) 0) 5 3 3) ∧
    generate_quiz (fun _ => .ok [wText]) (fun _ => .ok (lit "x")) (fun _ => .ok wGoodJson)
        (lit "doc.pdf") (List.replicate (10 * 1024 * 1024 + 1) 0) 5 3 3 =
      .error ⟨400, lit "File too large. Max 10MB"⟩) :=
  ⟨List.length_replicate _ _, List.length_replicate _ _,
    claim6_size_boundary (fun _ => .ok [wText]) (fun _ => .ok (lit "x")) (fun _ => .ok wGoodJson)
      (lit "doc.pdf") (List.replicate (10 * 1024 * 1024) 0)
      (List.replicate (10 * 1024 * 1024 + 1) 0)
      5 3 3 (by decide) (List.length_replicate _ _) (List.length_replicate _ _)⟩

/-- C7: a request whose filename does not end in ".pdf" is rejected with
the 400 "unsupported file type" error before any extraction attempt: the
rejection holds for every extraction oracle, and the handler's result is
identical under any two extraction oracles. -/
theorem claim7_bad_extension_rejected_before_extraction
    (readPdf readPdf' : List Nat → Except PyStr (List PyStr))
    (model : PyStr → Except PyStr PyStr)
    (jsonLoads : PyStr → Except PyStr Json)
    (filename : PyStr) (pdf_bytes : List Nat) (n1 n2 n3 : Nat)
    (h : pyEndsWith filename (lit ".pdf") = false) :
    generate_quiz readPdf model jsonLoads filename pdf_bytes n1 n2 n3 =
      .error ⟨400, lit "Only PDF files are allowed"⟩ ∧
    generate_quiz readPdf model jsonLoads filename pdf_bytes n1 n2 n3 =
      generate_quiz readPdf' model jsonLoads filename pdf_bytes n1 n2 n3 := by
  have hA := generate_quiz_reject_file_type readPdf model jsonLoads filename pdf_bytes n1 n2 n3 h
  have hB := generate_quiz_reject_file_type readPdf' model jsonLoads filename pdf_bytes n1 n2 n3 h
  exact ⟨hA, hA.trans hB.symm⟩

/-- C7 witness: a ".txt" filename is rejected, identically under a
succeeding and a failing extraction oracle. -/
theorem claim7_bad_extension_rejected_before_extraction_witness :
    pyEndsWith (lit "notes.txt") (lit ".pdf") = false ∧
    (generate_quiz (fun _ => .ok [wText]) (fun _ => .ok (lit "x")) (fun _ => .ok wGoodJson)
        (lit "notes.txt") [] 5 3 3 = .error ⟨400, lit "Only PDF files are allowed"⟩ ∧
    generate_quiz (fun _ => .ok [wText]) (fun _ => .ok (lit "x")) (fun _ => .ok wGoodJson)
        (lit "notes.txt") [] 5 3 3 =
      generate_quiz (fun _ => .error (lit "corrupt")) (fun _ => .ok (lit "x"))
        (fun _ => .ok wGoodJson) (lit "notes.txt") [] 5 3 3) :=
  ⟨by decide,
    claim7_bad_extension_rejected_before_extraction (fun _ => .ok [wText])
      (fun _ => .error (lit "corrupt")) (fun _ => .ok (lit "x"))
      (fun _ => .ok wGoodJson) (lit "notes.txt") [] 5 3 3 (by decide)⟩

/-- C8: for every extracted text and requested counts in [1,10], the
prompt builder's instruction embeds the text truncated to 8000 characters
verbatim, contains the decimal form of each requested count, and contains
the literal schema field names mcq, short_answer, fill_in_the_blanks,
question, options, correct_answer, explanation, expected_answer, answer
and hint. -/
theorem claim8_prompt_contents (text : PyStr) (n1 n2 n3 : Nat)
    (hn1 : 1 ≤ n1 ∧ n1 ≤ 10) (hn2 : 1 ≤ n2 ∧ n2 ≤ 10) (hn3 : 1 ≤ n3 ∧ n3 ≤ 10) :
    occursIn (text.take 8000) (build_prompt text n1 n2 n3) ∧
    occursIn (lit (Nat.repr n1)) (build_prompt text n1 n2 n3) ∧
    occursIn (lit (Nat.repr n2)) (build_prompt text n1 n2 n3) ∧
    occursIn (lit (Nat.repr n3)) (build_prompt text n1 n2 n3) ∧
    occursIn (lit "mcq") (build_prompt text n1 n2 n3) ∧
    occursIn (lit "short_answer") (build_prompt text n1 n2 n3) ∧
    occursIn (lit "fill_in_the_blanks") (build_prompt text n1 n2 n3) ∧
    occursIn (lit "question") (build_prompt text n1 n2 n3) ∧
    occursIn (lit "options") (build_prompt text n1 n2 n3) ∧
    occursIn (lit "correct_answer") (build_prompt text n1 n2 n3) ∧
    occursIn (lit "explanation") (build_prompt text n1 n2 n3) ∧
    occursIn (lit "expected_answer") (build_prompt text n1 n2 n3) ∧
    occursIn (lit "answer") (build_prompt text n1 n2 n3) ∧
    occursIn (lit "hint") (build_prompt text n1 n2 n3) := by
  refine ⟨?_, ?_, ?_, ?_, ?_, ?_, ?_, ?_, ?_, ?_, ?_, ?_, ?_, ?_⟩
  · simp only [build_prompt]
    exact occursIn_before _ (occursIn_before _ (occursIn_before _ (occursIn_before _ (occursIn_before _ (occursIn_before _ (occursIn_before _ (occursIn_before _ (occursIn_before _ (occursIn_before _ (occursIn_before _ (occursIn_before _ (occursIn_before _ (occursIn_before _ (occursIn_before _ (occursIn_before _ (occursIn_before _ (occursIn_before _ (occursIn_before _ (occursIn_before _ (occursIn_before _ (occursIn_before _ (occursIn_before _ (occursIn_before _ (occursIn_before _ (occursIn_before _ (occursIn_before _ (occursIn_last _ _)))))))))))))))))))))))))))
  · simp only [build_prompt]
    exact occursIn_before _ (occursIn_before _ (occursIn_before _ (occursIn_before _ (occursIn_before _ (occursIn_before _ (occursIn_before _ (occursIn_before _ (occursIn_before _ (occursIn_before _ (occursIn_before _ (occursIn_before _ (occursIn_before _ (occursIn_before _ (occursIn_before _ (occursIn_before _ (occursIn_before _ (occursIn_before _ (occursIn_before _ (occursIn_before _ (occursIn_before _ (occursIn_before _ (occursIn_before _ (occursIn_before _ (occursIn_before _ (occursIn_last _ _)))))))))))))))))))))))))
  · simp only [build_prompt]
    exact occursIn_before _ (occursIn_before _ (occursIn_before _ (occursIn_before _ (occursIn_before _ (occursIn_before _ (occursIn_before _ (occursIn_before _ (occursIn_before _ (occursIn_before _ (occursIn_before _ (occursIn_before _ (occursIn_before _ (occursIn_before _ (occursIn_before _ (occursIn_before _ (occursIn_before _ (occursIn_before _ (occursIn_before _ (occursIn_before _ (occursIn_before _ (occursIn_before _ (occursIn_before _ (occursIn_last _ _)))))))))))))))))))))))
  · simp only [build_prompt]
    exact occursIn_before _ (occursIn_before _ (occursIn_before _ (occursIn_before _ (occursIn_before _ (occursIn_before _ (occursIn_before _ (occursIn_before _ (occursIn_before _ (occursIn_before _ (occursIn_before _ (occursIn_before _ (occursIn_before _ (occursIn_before _ (occursIn_before _ (occursIn_before _ (occursIn_before _ (occursIn_before _ (occursIn_before _ (occursIn_before _ (occursIn_before _ (occursIn_last _ _)))))))))))))))))))))
  · simp only [build_prompt]
    exact occursIn_before _ (occursIn_before _ (occursIn_before _ (occursIn_before _ (occursIn_before _ (occursIn_before _ (occursIn_before _ (occursIn_before _ (occursIn_before _ (occursIn_before _ (occursIn_before _ (occursIn_before _ (occursIn_before _ (occursIn_before _ (occursIn_before _ (occursIn_before _ (occursIn_before _ (occursIn_before _ (occursIn_before _ (occursIn_last _ _)))))))))))))))))))
  · simp only [build_prompt]
    exact occursIn_before _ (occursIn_before _ (occursIn_before _ (occursIn_before _ (occursIn_before _ (occursIn_before _ (occursIn_before _ (occursIn_before _ (occursIn_before _ (occursIn_last _ _)))))))))
  · simp only [build_prompt]
    exact occursIn_before _ (occursIn_before _ (occursIn_before _ (occursIn_before _ (occursIn_before _ (occursIn_last _ _)))))
  · simp only [build_prompt]
    exact occursIn_before _ (occursIn_before _ (occursIn_before _ (occursIn_before _ (occursIn_before _ (occursIn_before _ (occursIn_before _ (occursIn_before _ (occursIn_before _ (occursIn_before _ (occursIn_before _ (occursIn_before _ (occursIn_before _ (occursIn_before _ (occursIn_before _ (occursIn_before _ (occursIn_before _ (occursIn_last _ _)))))))))))))))))
  · simp only [build_prompt]
    exact occursIn_before _ (occursIn_before _ (occursIn_before _ (occursIn_before _ (occursIn_before _ (occursIn_before _ (occursIn_before _ (occursIn_before _ (occursIn_before _ (occursIn_before _ (occursIn_before _ (occursIn_before _ (occursIn_before _ (occursIn_before _ (occursIn_before _ (occursIn_last _ _)))))))))))))))
  · simp only [build_prompt]
    exact occursIn_before _ (occursIn_before _ (occursIn_before _ (occursIn_before _ (occursIn_before _ (occursIn_before _ (occursIn_before _ (occursIn_before _ (occursIn_before _ (occursIn_before _ (occursIn_before _ (occursIn_before _ (occursIn_before _ (occursIn_last _ _)))))))))))))
  · simp only [build_prompt]
    exact occursIn_before _ (occursIn_before _ (occursIn_before _ (occursIn_before _ (occursIn_before _ (occursIn_before _ (occursIn_before _ (occursIn_before _ (occursIn_before _ (occursIn_before _ (occursIn_before _ (occursIn_last _ _)))))))))))
  · simp only [build_prompt]
    exact occursIn_before _ (occursIn_before _ (occursIn_before _ (occursIn_before _ (occursIn_before _ (occursIn_before _ (occursIn_before _ (occursIn_last _ _)))))))
  · simp only [build_prompt]
    exact occursIn_before _ (occursIn_before _ (occursIn_before _ (occursIn_last _ _)))
  · simp only [build_prompt]
    exact occursIn_before _ (occursIn_last _ _)

/-- C8 witness: the prompt for a concrete text and counts (3, 2, 4). -/
theorem claim8_prompt_contents_witness :
    (1 ≤ 3 ∧ 3 ≤ 10) ∧ (1 ≤ 2 ∧ 2 ≤ 10) ∧ (1 ≤ 4 ∧ 4 ≤ 10) ∧
    (occursIn ((lit "Some source text.").take 8000) (build_prompt (lit "Some source text.") 3 2 4) ∧
     occursIn (lit (Nat.repr 3)) (build_prompt (lit "Some source text.") 3 2 4) ∧
     occursIn (lit (Nat.repr 2)) (build_prompt (lit "Some source text.") 3 2 4) ∧
     occursIn (lit (Nat.repr 4)) (build_prompt (lit "Some source text.") 3 2 4) ∧
     occursIn (lit "mcq") (build_prompt (lit "Some source text.") 3 2 4) ∧
     occursIn (lit "short_answer") (build_prompt (lit "Some source text.") 3 2 4) ∧
     occursIn (lit "fill_in_the_blanks") (build_prompt (lit "Some source text.") 3 2 4) ∧
     occursIn (lit "question") (build_prompt (lit "Some source text.") 3 2 4) ∧
     occursIn (lit "options") (build_prompt (lit "Some source text.") 3 2 4) ∧
     occursIn (lit "correct_answer") (build_prompt (lit "Some source text.") 3 2 4) ∧
     occursIn (lit "explanation") (build_prompt (lit "Some source text.") 3 2 4) ∧
     occursIn (lit "expected_answer") (build_prompt (lit "Some source text.") 3 2 4) ∧
     occursIn (lit "answer") (build_prompt (lit "Some source text.") 3 2 4) ∧
     occursIn (lit "hint") (build_prompt (lit "Some source text.") 3 2 4)) :=
  ⟨⟨by decide, by decide⟩, ⟨by decide, by decide⟩, ⟨by decide, by decide⟩,
    claim8_prompt_contents (lit "Some source text.") 3 2 4
      ⟨by decide, by decide⟩ ⟨by decide, by decide⟩ ⟨by decide, by decide⟩⟩

/-- C9: for every decoded model document, each of the three named lists
that is absent is treated as empty: the corresponding shaping step
succeeds and constructs the empty collection. -/
theorem claim9_missing_lists_default_empty (fields : List (PyStr × Json)) :
    (jsonLookup fields (lit "mcq") = none → shape_mcq (.obj fields) = .ok []) ∧
    (jsonLookup fields (lit "short_answer") = none → shape_short (.obj fields) = .ok []) ∧
    (jsonLookup fields (lit "fill_in_the_blanks") = none → shape_blanks (.obj fields) = .ok []) :=
  ⟨shape_mcq_empty_of_absent fields, shape_short_empty_of_absent fields,
    shape_blanks_empty_of_absent fields⟩

/-- C9 witness: the empty decoded document shapes to three empty
collections without error. -/
theorem claim9_missing_lists_default_empty_witness :
    shape_mcq (.obj []) = .ok [] ∧ shape_short (.obj []) = .ok [] ∧
    shape_blanks (.obj []) = .ok [] :=
  ⟨(claim9_missing_lists_default_empty []).1 rfl,
   (claim9_missing_lists_default_empty []).2.1 rfl,
   (claim9_missing_lists_default_empty []).2.2 rfl⟩

/-- C10: the extension check compares against the literal lowercase
suffix ".pdf" case-sensitively: every filename ending in a four-character
variant different from ".pdf" — such as ".PDF" — is rejected with the
400 "unsupported file type" error even though it names a PDF document. -/
theorem claim10_extension_case_sensitive
    (readPdf : List Nat → Except PyStr (List PyStr))
    (model : PyStr → Except PyStr PyStr)
    (jsonLoads : PyStr → Except PyStr Json)
    (filename : PyStr) (pdf_bytes : List Nat) (n1 n2 n3 : Nat)
    (v : PyStr)
    (hv : v.length = 4) (hne : v ≠ lit ".pdf")
    (hend : pyEndsWith filename v = true) :
    generate_quiz readPdf model jsonLoads filename pdf_bytes n1 n2 n3 =
      .error ⟨400, lit "Only PDF files are allowed"⟩ := by
  apply generate_quiz_reject_file_type
  simp only [pyEndsWith, hv, Bool.and_eq_true, decide_eq_true_eq, beq_iff_eq] at hend
  by_contra hcontra
  rw [Bool.not_eq_false] at hcontra
  have hlen4 : (lit ".pdf").length = 4 := rfl
  simp only [pyEndsWith, hlen4, Bool.and_eq_true, decide_eq_true_eq, beq_iff_eq] at hcontra
  exact hne (hend.2.symm.trans hcontra.2)

/-- C10 witness: "report.PDF" is rejected as an unsupported file type. -/
theorem claim10_extension_case_sensitive_witness :
    (lit ".PDF").length = 4 ∧ lit ".PDF" ≠ lit ".pdf" ∧
    pyEndsWith (lit "report.PDF") (lit ".PDF") = true ∧
    generate_quiz (fun _ => .ok [wText]) (fun _ => .ok (lit "x")) (fun _ => .ok wGoodJson)
      (lit "report.PDF") [] 5 3 3 = .error ⟨400, lit "Only PDF files are allowed"⟩ :=
  ⟨rfl, by decide, by decide,
    claim10_extension_case_sensitive (fun _ => .ok [wText]) (fun _ => .ok (lit "x"))
      (fun _ => .ok wGoodJson) (lit "report.PDF") [] 5 3 3 (lit ".PDF")
      rfl (by decide) (by decide)⟩

end QuizGen
